import Mathlib

/- Verification of the content-generation orchestrator of the
   Video-Genius application (src/server/openai.ts).

   The model calls performed through the OpenAI client are external
   collaborators: each one is abstracted as an oracle value describing
   its settled outcome, and the theorems quantify over all possible
   outcomes.  Everything else is translated from the source. -/

namespace VideoGenius

/-- ASCII lowercasing, modelling the case-insensitive `i` flag of the
regular expressions in `generateScript` (all their letters are ASCII). -/
def asciiLower (c : Char) : Char :=
  if 'A' ≤ c ∧ c ≤ 'Z' then Char.ofNat (c.toNat + 32) else c

/-- The whitespace class matched by `\s` in a JavaScript regular
expression, restricted to the ASCII range (the exotic Unicode space
code points cannot occur in the patterns proved about here). -/
def isJsSpace (c : Char) : Bool :=
  c = ' ' || c = '\t' || c = '\n' || c = '\r' || c = '\x0b' || c = '\x0c'

/-- Value of `parseInt` on the captured digit group, which consists of
decimal digits only. -/
def digitsToNat (ds : List Char) : Nat :=
  ds.foldl (fun n c => n * 10 + (c.toNat - 48)) 0

/-- Boolean prefix test on character lists. -/
def prefixOfB : List Char → List Char → Bool
  | [], _ => true
  | _ :: _, [] => false
  | c :: cs, d :: ds => c == d && prefixOfB cs ds

/-- The unit-noun alternation of the quantity regular expression at
openai.ts line 124.  Each alternative is written as its stem: the
trailing optional `s?` never decides whether the whole pattern matches,
and only the captured digit group is used by the caller. -/
def unitStems : List (List Char) :=
  [("question").data, ("item").data, ("tip").data, ("way").data,
   ("step").data, ("example").data, ("idea").data, ("point").data,
   ("thing").data, ("reason").data, ("secret").data, ("hack").data,
   ("trick").data, ("method").data, ("strategie").data,
   ("technique").data, ("fact").data]

def stemPrefix (cs : List Char) : Bool :=
  unitStems.any (fun st => prefixOfB st cs)

/-- One attempt of the quantity pattern `(\d+)\s*(?:questions?|...)` at
a fixed position of the lowercased subject text: a nonempty digit run,
then `\s*`, then a unit noun.  Greedy matching without backtracking is
complete here because digits, whitespace and the stem letters are
disjoint character classes. -/
def matchCountAt (cs : List Char) : Option Nat :=
  let ds := cs.takeWhile Char.isDigit
  if ds.isEmpty then none
  else if stemPrefix ((cs.dropWhile Char.isDigit).dropWhile isJsSpace) then
    some (digitsToNat ds)
  else none

/-- Leftmost-match scan of `topic.match(...)`: the first position where
the quantity pattern matches wins. -/
def scanQuantity : List Char → Option Nat
  | [] => none
  | c :: cs =>
    match matchCountAt (c :: cs) with
    | some n => some n
    | none => scanQuantity cs

/-- `requestedQuantity` as computed at openai.ts lines 124-125: the
number captured by the first match of the count-plus-unit-noun
pattern, or `none` when the subject text has no match. -/
def extractQuantity (topic : String) : Option Nat :=
  scanQuantity (topic.data.map asciiLower)

def answerHere (r : List Char) : Bool :=
  prefixOfB ("answer").data r

/-- Tail of the Q-and-A pattern after the `questions?` part:
`\s*(?:and|&)?\s*answers?`.  All three branches of the optional group
are tried; maximal munch on `\s*` is complete because no branch starts
with a whitespace character. -/
def qaTail (r : List Char) : Bool :=
  let r1 := r.dropWhile isJsSpace
  answerHere r1
    || (prefixOfB ("and").data r1 && answerHere ((r1.drop 3).dropWhile isJsSpace))
    || (prefixOfB ("&").data r1 && answerHere ((r1.drop 1).dropWhile isJsSpace))

/-- One attempt of `/questions?\s*(?:and|&)?\s*answers?/i` at a fixed
position of the lowercased text: the literal `question`, an optional
`s` (both branches tried), then the tail. -/
def qaAt (cs : List Char) : Bool :=
  prefixOfB ("question").data cs &&
    (qaTail (cs.drop 8)
      || (prefixOfB (['s']) (cs.drop 8) && qaTail (cs.drop 9)))

def scanQA : List Char → Bool
  | [] => false
  | c :: cs => qaAt (c :: cs) || scanQA cs

/-- `isQAFormat` as computed at openai.ts line 128. -/
def isQAFormatM (topic : String) : Bool :=
  scanQA (topic.data.map asciiLower)

/-- Occurrence of a contiguous character sequence anywhere in a list. -/
def containsSeq (pat : List Char) : List Char → Bool
  | [] => prefixOfB pat []
  | c :: cs => prefixOfB pat (c :: cs) || containsSeq pat cs

/-- JavaScript truthiness of the nullable number `requestedQuantity`:
both `null` and `0` are falsy. -/
def optTruthy : Option Nat → Bool
  | none => false
  | some n => n != 0

/-- `getDurationInMinutes` (openai.ts lines 90-99). -/
def getDurationInMinutes (videoLength : String) : Rat :=
  if videoLength = "75 seconds (Short)" then 5/4
  else if videoLength = "3-5 minutes (Standard)" then 4
  else if videoLength = "8-12 minutes (Extended)" then 10
  else if videoLength = "15-20 minutes (Deep Dive)" then 35/2
  else if videoLength = "20+ minutes (Comprehensive)" then 25
  else 4

/-- `getTargetWords` (openai.ts lines 101-104): `Math.round` of the
minutes times the 150 words-per-minute speaking rate. -/
def getTargetWords (videoLength : String) : Int :=
  round (getDurationInMinutes videoLength * 150)

/-- Decimal rendering of the duration number exactly as JavaScript
prints it inside the prompt template. -/
def durationMinutesText (videoLength : String) : String :=
  if videoLength = "75 seconds (Short)" then "1.25"
  else if videoLength = "3-5 minutes (Standard)" then "4"
  else if videoLength = "8-12 minutes (Extended)" then "10"
  else if videoLength = "15-20 minutes (Deep Dive)" then "17.5"
  else if videoLength = "20+ minutes (Comprehensive)" then "25"
  else "4"

def toneInformative : String :=
  "Professional and clear. Focus on accurate information with an expert delivery. Use precise language while staying accessible. Maintain credibility and authority throughout."

/-- `getToneInstructions` (openai.ts lines 106-117); an unknown tone
falls back to the informative entry. -/
def getToneInstructions (tone : String) : String :=
  if tone = "informative" then toneInformative
  else if tone = "casual" then "Friendly and conversational. Use contractions freely (you\x27re, don\x27t, can\x27t). Talk like you\x27re chatting with a friend. Include humor naturally. Keep it relaxed and approachable."
  else if tone = "comedic" then "Funny and entertaining. Include jokes, witty remarks, and humorous observations. Use comedic timing with setup and punchline structure. Make viewers laugh while delivering value."
  else if tone = "storytelling" then "Narrative-driven and emotional. Build a compelling story arc with character, conflict, and resolution. Create emotional connections. Use vivid imagery and sensory details."
  else if tone = "persuasive" then "Convincing and compelling. Present clear arguments with supporting evidence. Address objections. Build to a strong conclusion that motivates action. Use rhetorical devices effectively."
  else if tone = "empathetic" then "Warm and understanding. Use \x27we\x27 language to create connection. Acknowledge difficulties and emotions. Avoid harsh or judgmental language. Show genuine care and support."
  else if tone = "experimental" then "Unique and unconventional. Break traditional structures. Try innovative approaches. Challenge expectations. Create memorable, distinctive content that stands out."
  else toneInformative

/-- `AVOIDED_PHRASES` (openai.ts lines 57-88). -/
def AVOIDED_PHRASES : List String :=
  ["Let\x27s dive into",
   "Today, we\x27re going to uncover",
   "Have you ever wondered why",
   "In this video, I\x27ll walk you through",
   "By the end of this video, you\x27ll know exactly how to",
   "If you\x27ve been struggling with",
   "So, let\x27s get started",
   "Here\x27s what you need to know about",
   "Welcome back to another episode of",
   "Let\x27s break this down step by step",
   "Now, let\x27s move on to",
   "But that\x27s not all",
   "Here\x27s where it gets interesting",
   "The next step is crucial",
   "On the other hand",
   "What does this mean for you",
   "That brings us to the next point",
   "Before we continue, let\x27s quickly recap",
   "So far, we\x27ve covered",
   "Next up, we have",
   "Let\x27s embark on this journey together",
   "We\x27re about to delve deeper into",
   "Think of this as your roadmap to",
   "Join me as we explore",
   "Let\x27s take a closer look",
   "We\x27re stepping into the world of",
   "Let\x27s uncover the secrets behind",
   "We\x27re peeling back the layers of",
   "Let\x27s explore this step by step",
   "Together, we\x27ll navigate through"]

/-- The quantity directive injected into the prompt (openai.ts lines
137-151); empty when `requestedQuantity` is falsy. -/
def quantityInstructionFor (requestedQuantity : Option Nat) (isQAFormat : Bool) : String :=
  if optTruthy requestedQuantity then
    let n := toString (requestedQuantity.getD 0)
    if isQAFormat then
      "\nCRITICAL: The user specifically requested " ++ n ++ " question and answer pairs. You MUST generate EXACTLY " ++ n ++ " SEPARATE items in the mainContent array. \n\nIMPORTANT FORMAT RULES:\n- Each question MUST be its own separate item in the array\n- Do NOT group questions (e.g., \"Questions 3 through 7\" is WRONG)\n- Each item should be numbered individually: \"Question 1\", \"Question 2\", \"Question 3\", etc.\n- Each question gets its own complete answer in the content field\n- You need " ++ n ++ " separate array items, numbered from 1 to " ++ n
    else
      "\nCRITICAL: The user specifically requested " ++ n ++ " items. You MUST generate EXACTLY " ++ n ++ " SEPARATE items in the mainContent array. Each item should be numbered individually (Item 1, Item 2, etc.). Do NOT group items together."
  else ""

/-- `templateInstruction` (openai.ts lines 130-132). -/
def templateInstructionFor (template : Option String) : String :=
  match template with
  | some t => "Use this content template structure: \"" ++ t ++ "\". Fill in the blanks with relevant information about the topic."
  | none => "Create an engaging and informative script structure."

/-- The full prompt template of `generateScript` (openai.ts lines
153-224), parameterised by the extracted quantity and format flag.
Braces of the JSON template are written as hex escapes. -/
def buildScriptPrompt (topic videoLength tone : String) (template : Option String)
    (q : Option Nat) (isQA : Bool) : String :=
  let quantityInstruction := quantityInstructionFor q isQA
  let nStr := toString (q.getD 0)
  "\nCreate a WORLD-CLASS YouTube video script about \"" ++ topic
    ++ "\" with the following requirements:\n\nLENGTH: Target "
    ++ toString (getTargetWords videoLength)
    ++ " words total (approximately " ++ durationMinutesText videoLength
    ++ " minutes)\nREADING LEVEL: 6th grade level - use simple, clear language that anyone can understand\nTONE: "
    ++ getToneInstructions tone
    ++ "\nVOCABULARY: Use common words, short sentences, and avoid jargon or complex terms\nENGAGEMENT: Include questions, personal stories, relatable examples, and direct audience address\n"
    ++ quantityInstruction
    ++ "\n\n" ++ templateInstructionFor template
    ++ "\n\nSTRICTLY AVOID these overused AI phrases and similar patterns:\n"
    ++ String.intercalate (", ") AVOIDED_PHRASES
    ++ "\n\nInstead, use natural conversational starters, storytelling elements, and human-like transitions.\n\nStructure the script with these sections:\n1. HOOK (0-5 seconds): MUST be INCREDIBLY attention-grabbing. Use pattern interrupts, shocking facts, bold questions, or compelling teasers. This is THE MOST CRITICAL 5 SECONDS.\n2. INTRODUCTION (5-30 seconds): Build credibility and preview the value. Make viewers excited to stay.\n3. MAIN CONTENT: The core teaching/entertainment content broken into logical sections with smooth transitions"
    ++ (if optTruthy q then " - MUST contain EXACTLY " ++ nStr ++ " items" else "")
    ++ "\n4. CONCLUSION: Powerful summary with an irresistible call-to-action that drives engagement\n\nReturn the response in JSON format with this structure:\n\x7b\n  \"hook\": \x7b\n    \"title\": \"Hook\",\n    \"content\": \"script content\",\n    \"duration\": \"0-5 seconds\"\n  \x7d,\n  \"introduction\": \x7b\n    \"title\": \"Introduction\", \n    \"content\": \"script content\",\n    \"duration\": \"5-30 seconds\"\n  \x7d,\n  \"mainContent\": ["
    ++ (if isQA && optTruthy q then
          "\n    \x7b\n      \"title\": \"Question 1: [actual question text]\",\n      \"content\": \"[complete answer to question 1]\",\n      \"duration\": \"estimated duration\"\n    \x7d,\n    \x7b\n      \"title\": \"Question 2: [actual question text]\",\n      \"content\": \"[complete answer to question 2]\",\n      \"duration\": \"estimated duration\"\n    \x7d\n    // ... continue with Question 3, Question 4, etc. up to Question "
            ++ nStr ++ "\n    // Each question MUST be separate - DO NOT group them"
        else
          "\n    \x7b\n      \"title\": \""
            ++ (if isQA then "Question 1: [actual question text]" else "Section title")
            ++ "\",\n      \"content\": \""
            ++ (if isQA then "[complete answer]" else "script content")
            ++ "\",\n      \"duration\": \"estimated duration\"\n    \x7d"
            ++ (if optTruthy q then " // MUST have exactly " ++ nStr ++ " separate items in this array" else ""))
    ++ "\n  ],\n  \"conclusion\": \x7b\n    \"title\": \"Conclusion & CTA\",\n    \"content\": \"script content\", \n    \"duration\": \"estimated duration\"\n  \x7d,\n  \"totalWords\": number,\n  \"estimatedDuration\": \"X minutes Y seconds\"\n\x7d\n\nQUALITY REQUIREMENTS:\n- Write as if a real person is speaking naturally, not reading from a script\n- Use contractions (you\x27re, don\x27t, can\x27t) and casual language appropriately\n- Include personal touches like \"I\x27ve found that...\" or \"Here\x27s what worked for me...\"\n- Ask rhetorical questions to keep viewers engaged\n- Use simple transitions like \"Now,\" \"Next,\" \"But here\x27s the thing\"\n- Keep sentences short and punchy for easy comprehension\n- Maintain professional credibility while being approachable and relatable\n"

/-- The prompt actually sent by `generateScript` for a given request:
the template instantiated at the quantity and format extracted from
the topic. -/
def scriptPrompt (topic videoLength tone : String) (template : Option String) : String :=
  buildScriptPrompt topic videoLength tone template (extractQuantity topic) (isQAFormatM topic)

structure ScriptSection where
  title : Option String
  content : Option String
  duration : Option String
deriving DecidableEq, Repr

/-- The object produced by `JSON.parse` at openai.ts line 242,
restricted to the declared `GeneratedScript` shape.  `none` models an
absent (or `null`, equally falsy) field of the parsed JSON object. -/
structure ParsedScript where
  hook : Option ScriptSection
  introduction : Option ScriptSection
  mainContent : Option (List ScriptSection)
  conclusion : Option ScriptSection
  totalWords : Option Int
  estimatedDuration : Option String
deriving DecidableEq, Repr

/-- Outcome of one model call of the script generator, observed after
the parse step: the completion call can reject, the returned text can
fail JSON.parse (both throw and reach the catch block), or it parses
to a script object.  A null or empty content string makes the code
parse the literal fallback text, which yields the all-absent object. -/
inductive ScriptAttempt where
  | invokeError (msg : String)
  | parseError (msg : String)
  | resp (p : ParsedScript)
deriving DecidableEq, Repr

/-- The message of the error thrown at openai.ts line 278. -/
def quantityErrMsg (expected actual : Nat) : String :=
  "Script generation failed to produce " ++ toString expected
    ++ " items as requested (got " ++ toString actual ++ "). Please try again."

/-- The wrapping applied by the catch block at openai.ts lines 284-286. -/
def scriptFailMsg (msg : String) : String :=
  "Failed to generate script: " ++ msg

/-- Control flow of `generateScript` (openai.ts lines 119-287) with the
two possible model calls abstracted as settled outcomes; the second
component counts how many retry calls were performed.  The video
length, tone and template parameters only shape the prompt text (see
`scriptPrompt`), never the control flow, so they are not repeated
here. -/
def generateScriptRun (topic : String) (first retryAttempt : ScriptAttempt) :
    Except String ParsedScript × Nat :=
  let requestedQuantity := extractQuantity topic
  match first with
  | .invokeError e => (.error (scriptFailMsg e), 0)
  | .parseError e => (.error (scriptFailMsg e), 0)
  | .resp parsedScript =>
    if optTruthy requestedQuantity && parsedScript.mainContent.isSome then
      let n := requestedQuantity.getD 0
      let actualCount := (parsedScript.mainContent.getD []).length
      if actualCount ≠ n then
        match retryAttempt with
        | .invokeError e => (.error (scriptFailMsg e), 1)
        | .parseError e => (.error (scriptFailMsg e), 1)
        | .resp retryParsed =>
          match retryParsed.mainContent with
          | some l =>
            if l.length = n then (.ok retryParsed, 1)
            else (.error (scriptFailMsg (quantityErrMsg n l.length)), 1)
          | none => (.ok parsedScript, 1)
      else (.ok parsedScript, 0)
    else (.ok parsedScript, 0)

/-- JSON values, for modelling the host JSON.parse. -/
inductive Js where
  | null
  | bool (b : Bool)
  | num (raw : String)
  | str (s : String)
  | arr (elems : List Js)
  | obj (fields : List (String × Js))
deriving Inhabited, Repr

def skipJsonWs (l : List Char) : List Char :=
  l.dropWhile (fun c => c = ' ' || c = '\t' || c = '\n' || c = '\r')

/-- String body after the opening quote; escape sequences are kept raw,
since no claim depends on their decoding. -/
def parseStrBody : Nat → List Char → List Char → Option (String × List Char)
  | 0, _, _ => none
  | _ + 1, _, [] => none
  | fuel + 1, acc, c :: rest =>
    if c = '"' then some (String.mk acc.reverse, rest)
    else if c = '\\' then
      match rest with
      | [] => none
      | d :: rest2 => parseStrBody fuel (d :: c :: acc) rest2
    else parseStrBody fuel (c :: acc) rest

def numChar (c : Char) : Bool :=
  c.isDigit || c = '-' || c = '+' || c = '.' || c = 'e' || c = 'E'

/-- Modelled from the host JSON.parse, simplified: a numeric token is a
maximal run of number characters containing at least one digit.  No
claim depends on number parsing. -/
def parseNumber (l : List Char) : Option (String × List Char) :=
  let run := l.takeWhile numChar
  if run.any Char.isDigit then some (String.mk run, l.dropWhile numChar)
  else none

mutual

/-- Modelled from the host JSON.parse: recursive-descent parse of one
JSON value, fuelled to make termination structural. -/
def parseVal : Nat → List Char → Option (Js × List Char)
  | 0, _ => none
  | fuel + 1, l0 =>
    match skipJsonWs l0 with
    | [] => none
    | c :: rest =>
      if c = '\x7b' then
        match skipJsonWs rest with
        | '\x7d' :: r => some (.obj [], r)
        | r =>
          match parseObjFields fuel r with
          | some (fs, r2) => some (.obj fs, r2)
          | none => none
      else if c = '[' then
        match skipJsonWs rest with
        | ']' :: r => some (.arr [], r)
        | r =>
          match parseArrElems fuel r with
          | some (vs, r2) => some (.arr vs, r2)
          | none => none
      else if c = '"' then
        match parseStrBody fuel [] rest with
        | some (s, r) => some (.str s, r)
        | none => none
      else if prefixOfB ("true").data (c :: rest) then some (.bool true, (c :: rest).drop 4)
      else if prefixOfB ("false").data (c :: rest) then some (.bool false, (c :: rest).drop 5)
      else if prefixOfB ("null").data (c :: rest) then some (.null, (c :: rest).drop 4)
      else
        match parseNumber (c :: rest) with
        | some (s, r) => some (.num s, r)
        | none => none

def parseObjFields : Nat → List Char → Option (List (String × Js) × List Char)
  | 0, _ => none
  | fuel + 1, l0 =>
    match skipJsonWs l0 with
    | '"' :: rest =>
      match parseStrBody fuel [] rest with
      | some (k, r1) =>
        match skipJsonWs r1 with
        | ':' :: r2 =>
          match parseVal fuel r2 with
          | some (v, r3) =>
            match skipJsonWs r3 with
            | ',' :: r4 =>
              match parseObjFields fuel r4 with
              | some (fs, r5) => some ((k, v) :: fs, r5)
              | none => none
            | '\x7d' :: r4 => some ([(k, v)], r4)
            | _ => none
          | none => none
        | _ => none
      | none => none
    | _ => none

def parseArrElems : Nat → List Char → Option (List Js × List Char)
  | 0, _ => none
  | fuel + 1, l0 =>
    match parseVal fuel l0 with
    | some (v, r1) =>
      match skipJsonWs r1 with
      | ',' :: r2 =>
        match parseArrElems fuel r2 with
        | some (vs, r3) => some (v :: vs, r3)
        | none => none
      | ']' :: r2 => some ([v], r2)
      | _ => none
    | none => none

end

/-- Top-level JSON.parse model: the whole text must be one value. -/
def jsonParse (s : String) : Option Js :=
  match parseVal (3 * s.length + 3) s.data with
  | some (v, rest) => if (skipJsonWs rest).isEmpty then some v else none
  | none => none

/-- Modelled from the host JSON.parse: the message carried by the
SyntaxError it throws on malformed input; the exact text is
host-defined and no claim depends on it. -/
def jsonParseErrorText : String :=
  "Unexpected token in JSON"

/-- `generateSEOPackage` (openai.ts lines 289-345) with the model call
abstracted as its settled outcome: either the completion call rejects
with a message, or it yields the nullable message content.  The try
block spans both the call and `JSON.parse(content || two-brace-fallback)`,
so a parse failure reaches the same catch block as an invocation
failure; a null content parses the fallback text to the empty object. -/
def generateSEOPackageRun (reply : Except String (Option String)) : Except String Js :=
  match reply with
  | .error e => .error ("Failed to generate SEO package: " ++ e)
  | .ok content =>
    match jsonParse (content.getD ("\x7b\x7d")) with
    | some v => .ok v
    | none => .error ("Failed to generate SEO package: " ++ jsonParseErrorText)

/-- `generateThumbnailConcepts` (openai.ts lines 347-415): identical
structure to the SEO generator. -/
def generateThumbnailConceptsRun (reply : Except String (Option String)) : Except String Js :=
  match reply with
  | .error e => .error ("Failed to generate thumbnail concepts: " ++ e)
  | .ok content =>
    match jsonParse (content.getD ("\x7b\x7d")) with
    | some v => .ok v
    | none => .error ("Failed to generate thumbnail concepts: " ++ jsonParseErrorText)

/-- `generateProductionAssets` (openai.ts lines 417-486): identical
structure to the SEO generator. -/
def generateProductionAssetsRun (reply : Except String (Option String)) : Except String Js :=
  match reply with
  | .error e => .error ("Failed to generate production assets: " ++ e)
  | .ok content =>
    match jsonParse (content.getD ("\x7b\x7d")) with
    | some v => .ok v
    | none => .error ("Failed to generate production assets: " ++ jsonParseErrorText)

/-- One result entry of the image-prompt generators. -/
structure PromptEntry where
  sectionLabel : String
  content : String
  prompts : List String
deriving DecidableEq, Repr

/-- Outcome of one per-section model call inside the image-prompt
generators: failure of the call or of its parse (both are caught by the
per-section catch block), or the parsed imagePrompts field, with
`none` for an absent field (defaulted to the empty list by the code). -/
inductive SectionOutcome where
  | fail (msg : String)
  | ok (imagePrompts : Option (List String))
deriving DecidableEq, Repr

/-- JavaScript `String.prototype.trim`, on the ASCII whitespace set. -/
def jsTrim (s : String) : String :=
  String.mk (((s.data.dropWhile isJsSpace).reverse.dropWhile isJsSpace).reverse)

/-- JavaScript `split` on the two-character separator: greedy
left-to-right cut at each non-overlapping occurrence. -/
def splitOnDoubleNewline : List Char → List Char → List (List Char)
  | acc, [] => [acc.reverse]
  | acc, '\n' :: '\n' :: rest => acc.reverse :: splitOnDoubleNewline [] rest
  | acc, c :: rest => splitOnDoubleNewline (c :: acc) rest

/-- The paragraph list of `generateImagePromptsFromRawScript`
(openai.ts lines 490-493). -/
def splitParagraphs (raw : String) : List String :=
  ((splitOnDoubleNewline [] raw.data).map (fun p => jsTrim (String.mk p))).filter
    (fun p => p != "")

/-- The result entry pushed for paragraph `j` by the loop body of
`generateImagePromptsFromRawScript` (openai.ts lines 537-550): on
success the parsed imagePrompts field defaulted to the empty list, on
a caught per-section failure the empty list. -/
def imageEntry (o : Nat → SectionOutcome) (j : Nat) (p : String) : PromptEntry :=
  match o j with
  | .fail _ => { sectionLabel := "Paragraph " ++ toString (j + 1), content := p, prompts := [] }
  | .ok r => { sectionLabel := "Paragraph " ++ toString (j + 1), content := p, prompts := r.getD [] }

/-- The per-paragraph loop of `generateImagePromptsFromRawScript`
(openai.ts lines 497-551), with the model call of section `i` given by
the oracle at `i`. -/
def imageLoop (o : Nat → SectionOutcome) : Nat → List String → List PromptEntry
  | _, [] => []
  | i, p :: rest => imageEntry o i p :: imageLoop o (i + 1) rest

/-- `generateImagePromptsFromRawScript` (openai.ts lines 488-554). -/
def generateImagePromptsFromRawScriptRun (raw : String) (o : Nat → SectionOutcome) :
    List PromptEntry :=
  imageLoop o 0 (splitParagraphs raw)

def sectionContentText (x : Option ScriptSection) : String :=
  ((x.getD { title := none, content := none, duration := none }).content).getD ""

def mainSections : Nat → List ScriptSection → List (String × String)
  | _, [] => []
  | i, sec :: rest =>
    ("Main Content " ++ toString (i + 1), sec.content.getD "") :: mainSections (i + 1) rest

/-- The section list enumerated by `generateImagePrompts` (openai.ts
lines 557-565).  The model reads the section texts through a total
accessor: the original code assumes the four fixed section objects are
present in the parsed script, as its generating prompt mandates. -/
def scriptSections (s : ParsedScript) : List (String × String) :=
  ("Hook", sectionContentText s.hook)
    :: ("Introduction", sectionContentText s.introduction)
    :: (mainSections 0 (s.mainContent.getD [])
        ++ [("Conclusion", sectionContentText s.conclusion)])

/-- The per-section loop of `generateImagePrompts` (openai.ts lines
567-622). -/
def namedLoop (o : Nat → SectionOutcome) : Nat → List (String × String) → List PromptEntry
  | _, [] => []
  | i, (name, text) :: rest =>
    (match o i with
     | .fail _ => { sectionLabel := name, content := text, prompts := [] }
     | .ok r => { sectionLabel := name, content := text, prompts := r.getD [] })
      :: namedLoop o (i + 1) rest

/-- `generateImagePrompts` (openai.ts lines 556-623). -/
def generateImagePromptsRun (s : ParsedScript) (o : Nat → SectionOutcome) : List PromptEntry :=
  namedLoop o 0 (scriptSections s)

/-- The production-assets object as parsed from the model text; `none`
models a field absent from the parsed JSON. -/
structure ProdParsed where
  musicPrompts : Option Js
  bulletPoints : Option Js
deriving Repr

/-- The shared assets bucket of the content package, as mutated by the
two callbacks that write into it. -/
structure AssetsObj where
  musicPrompts : Option Js
  bulletPoints : Option Js
  imagePrompts : Option (List PromptEntry)
deriving Repr

/-- JavaScript object spread: a field present in the update wins. -/
def spreadField (upd old : Option Js) : Option Js :=
  match upd with
  | some v => some v
  | none => old

/-- The imagePrompts .then callback of `generateCompleteContent`
(openai.ts lines 673-676): initialise the bucket with empty music and
bullet lists when absent, then assign the imagePrompts field. -/
def imagePromptsMerge (prompts : List PromptEntry) (assets : Option AssetsObj) : AssetsObj :=
  match assets with
  | none =>
    { musicPrompts := some (Js.arr []), bulletPoints := some (Js.arr []),
      imagePrompts := some prompts }
  | some a => { a with imagePrompts := some prompts }

/-- The production-assets .then callback (openai.ts lines 682-688):
spread-merge into the existing bucket, plain assignment otherwise. -/
def productionAssetsMerge (g : ProdParsed) (assets : Option AssetsObj) : AssetsObj :=
  match assets with
  | some a =>
    { musicPrompts := spreadField g.musicPrompts a.musicPrompts,
      bulletPoints := spreadField g.bulletPoints a.bulletPoints,
      imagePrompts := a.imagePrompts }
  | none =>
    { musicPrompts := g.musicPrompts, bulletPoints := g.bulletPoints, imagePrompts := none }

/-- The imagePrompts .then callback of `generateContentFromScript`
(openai.ts lines 731-735); its extra initialisation of the
imagePrompts field is immediately overwritten by the final
assignment. -/
def imagePromptsMergeFromScript (prompts : List PromptEntry) (assets : Option AssetsObj) :
    AssetsObj :=
  match assets with
  | none =>
    { musicPrompts := some (Js.arr []), bulletPoints := some (Js.arr []),
      imagePrompts := some prompts }
  | some a => { a with imagePrompts := some prompts }

/-- The `GeneratedContent` record assembled by the coordinators. -/
structure ContentPackage where
  script : Option ParsedScript
  seo : Option Js
  thumbnails : Option Js
  assets : Option AssetsObj
deriving Repr

/-- Relative completion order of the two concurrent tasks that write
the shared assets bucket; all other tasks write disjoint fields, so no
other ordering is observable. -/
inductive MergeOrder where
  | imageFirst
  | assetsFirst
deriving DecidableEq, Repr

def exErr {α : Type} (x : Except String α) : Option String :=
  match x with
  | .error e => some e
  | .ok _ => none

def exOk {α : Type} (x : Except String α) : Option α :=
  match x with
  | .ok v => some v
  | .error _ => none

/-- First rejection reason among settled tasks. -/
def firstSome (x y : Option String) : Option String :=
  match x with
  | some e => some e
  | none => y

/-- The fan-out part of `generateCompleteContent` after the script step
(openai.ts lines 640-695), sequentialised: the launched tasks are given
by their settled outcomes; `Promise.all` rejects when any requested
task rejected (the modelled rejection reason is the first one in the
launch order, while the claims only depend on there being one), and
`ord` fixes the completion order of the two callbacks that share the
assets bucket. -/
def completeContentAfterScript (topic : String) (types : List String) (ord : MergeOrder)
    (s : Option ParsedScript) (seoO thumbO : Except String Js)
    (imgO : Nat → SectionOutcome) (prodO : Except String ProdParsed) :
    Except String ContentPackage :=
  let seoReq := types.contains ("seo")
  let thumbReq := types.contains ("thumbnails")
  let imgReq := types.contains ("imagePrompts")
  let prodReq := types.contains ("assets") || types.contains ("music")
      || types.contains ("bulletPoints")
  let rejection : Option String :=
    firstSome (if seoReq then exErr seoO else none)
      (firstSome (if thumbReq then exErr thumbO else none)
        (if prodReq then exErr prodO else none))
  match rejection with
  | some e => .error ("Failed to generate complete content: " ++ e)
  | none =>
    let imgResult : List PromptEntry :=
      match s with
      | some sc => generateImagePromptsRun sc imgO
      | none => generateImagePromptsFromRawScriptRun topic imgO
    let assets : Option AssetsObj :=
      if imgReq then
        if prodReq then
          match exOk prodO with
          | some g =>
            some (match ord with
              | .imageFirst => productionAssetsMerge g (some (imagePromptsMerge imgResult none))
              | .assetsFirst => imagePromptsMerge imgResult (some (productionAssetsMerge g none)))
          | none => none
        else some (imagePromptsMerge imgResult none)
      else if prodReq then
        match exOk prodO with
        | some g => some (productionAssetsMerge g none)
        | none => none
      else none
    .ok { script := s,
          seo := if seoReq then exOk seoO else none,
          thumbnails := if thumbReq then exOk thumbO else none,
          assets := assets }

/-- `generateCompleteContent` (openai.ts lines 625-699): the script
step, when requested, runs first and serially; its failure, or the
failure of any requested concurrent task, is wrapped by the catch
block; when the script is present the image-prompt task runs in
structured mode, otherwise in raw mode over the topic (the script text
variable is undefined without a script). -/
def generateCompleteContentRun (topic : String) (types : List String) (ord : MergeOrder)
    (scriptFirst scriptRetry : ScriptAttempt) (seoO thumbO : Except String Js)
    (imgO : Nat → SectionOutcome) (prodO : Except String ProdParsed) :
    Except String ContentPackage :=
  if types.contains ("script") then
    match (generateScriptRun topic scriptFirst scriptRetry).1 with
    | .error e => .error ("Failed to generate complete content: " ++ e)
    | .ok s => completeContentAfterScript topic types ord (some s) seoO thumbO imgO prodO
  else completeContentAfterScript topic types ord none seoO thumbO imgO prodO

/-- `generateContentFromScript` (openai.ts lines 701-757): no script
step; the image-prompt task always runs in raw mode over the uploaded
script text; otherwise the same fan-out as `generateCompleteContent`. -/
def generateContentFromScriptRun (script : String) (types : List String) (ord : MergeOrder)
    (seoO thumbO : Except String Js) (imgO : Nat → SectionOutcome)
    (prodO : Except String ProdParsed) : Except String ContentPackage :=
  let seoReq := types.contains ("seo")
  let thumbReq := types.contains ("thumbnails")
  let imgReq := types.contains ("imagePrompts")
  let prodReq := types.contains ("assets") || types.contains ("music")
      || types.contains ("bulletPoints")
  let rejection : Option String :=
    firstSome (if seoReq then exErr seoO else none)
      (firstSome (if thumbReq then exErr thumbO else none)
        (if prodReq then exErr prodO else none))
  match rejection with
  | some e => .error ("Failed to generate content from script: " ++ e)
  | none =>
    let imgResult : List PromptEntry := generateImagePromptsFromRawScriptRun script imgO
    let assets : Option AssetsObj :=
      if imgReq then
        if prodReq then
          match exOk prodO with
          | some g =>
            some (match ord with
              | .imageFirst =>
                  productionAssetsMerge g (some (imagePromptsMergeFromScript imgResult none))
              | .assetsFirst =>
                  imagePromptsMergeFromScript imgResult (some (productionAssetsMerge g none)))
          | none => none
        else some (imagePromptsMergeFromScript imgResult none)
      else if prodReq then
        match exOk prodO with
        | some g => some (productionAssetsMerge g none)
        | none => none
      else none
    .ok { script := none,
          seo := if seoReq then exOk seoO else none,
          thumbnails := if thumbReq then exOk thumbO else none,
          assets := assets }

/-- The object parsed from the fallback text when the model content is
null: every field absent. -/
def emptyParsedScript : ParsedScript :=
  { hook := none, introduction := none, mainContent := none,
    conclusion := none, totalWords := none, estimatedDuration := none }

def sampleSection : ScriptSection :=
  { title := some ("Item"), content := some ("text"), duration := none }

/-- A parsed response whose mainContent array has three entries. -/
def threeItemScript : ParsedScript :=
  { hook := none, introduction := none,
    mainContent := some [sampleSection, sampleSection, sampleSection],
    conclusion := none, totalWords := none, estimatedDuration := none }

/-- A parsed first response with one mainContent entry and a
distinctive hook. -/
def oneItemScript : ParsedScript :=
  { hook := some { title := some ("Hook"), content := some ("h"), duration := none },
    introduction := none, mainContent := some [sampleSection],
    conclusion := none, totalWords := none, estimatedDuration := none }

/-- A section oracle failing on the first section and succeeding on the
others. -/
def failFirstOracle : Nat → SectionOutcome :=
  fun i => if i = 0 then .fail ("model call failed") else .ok (some ["p1"])

theorem prefixOfB_append (a t : List Char) : prefixOfB a (a ++ t) = true := by
  induction a with
  | nil => rfl
  | cons c cs ih => simp [prefixOfB, ih]

theorem prefixOfB_exists {a b : List Char} (h : prefixOfB a b = true) :
    ∃ t, b = a ++ t := by
  induction a generalizing b with
  | nil => exact ⟨b, rfl⟩
  | cons c cs ih =>
    cases b with
    | nil => simp [prefixOfB] at h
    | cons d ds =>
      simp only [prefixOfB, Bool.and_eq_true, beq_iff_eq] at h
      obtain ⟨rfl, h2⟩ := h
      obtain ⟨t, rfl⟩ := ih h2
      exact ⟨t, rfl⟩

theorem takeWhile_all_append {p : Char → Bool} :
    ∀ (l : List Char) {c : Char} (r : List Char),
      (∀ x ∈ l, p x = true) → p c = false → (l ++ c :: r).takeWhile p = l := by
  intro l
  induction l with
  | nil =>
    intro c r _ hc
    simp [List.takeWhile_cons, hc]
  | cons a t ih =>
    intro c r hall hc
    have ha : p a = true := hall a (List.mem_cons_self a t)
    simp [List.takeWhile_cons, ha,
      ih r (fun x hx => hall x (List.mem_cons_of_mem a hx)) hc]

theorem dropWhile_all_append {p : Char → Bool} :
    ∀ (l : List Char) {c : Char} (r : List Char),
      (∀ x ∈ l, p x = true) → p c = false → (l ++ c :: r).dropWhile p = c :: r := by
  intro l
  induction l with
  | nil =>
    intro c r _ hc
    simp [List.dropWhile_cons, hc]
  | cons a t ih =>
    intro c r hall hc
    have ha : p a = true := hall a (List.mem_cons_self a t)
    simp [List.dropWhile_cons, ha,
      ih r (fun x hx => hall x (List.mem_cons_of_mem a hx)) hc]

theorem asciiLower_digit {c : Char} (h : c.isDigit = true) : asciiLower c = c := by
  unfold asciiLower
  rw [if_neg]
  intro hA
  simp only [Char.isDigit, Bool.and_eq_true, decide_eq_true_eq] at h
  have h9 : c ≤ '9' := h.2
  exact absurd (le_trans hA.1 h9) (by decide)

theorem map_asciiLower_digits :
    ∀ (l : List Char), (∀ c ∈ l, Char.isDigit c = true) → l.map asciiLower = l := by
  intro l
  induction l with
  | nil => intro _; rfl
  | cons c cs ih =>
    intro hall
    simp [asciiLower_digit (hall c (List.mem_cons_self c cs)),
      ih (fun x hx => hall x (List.mem_cons_of_mem c hx))]

/-- Claim C1, counterexample: the subject text `0 tips for work` has an
extracted requestedQuantity of 0; the first parsed response has a
mainContent array of length 3, different from 0, yet generateScript
performs no retry call at all (the claim requires exactly one). -/
theorem c1_counterexample :
    extractQuantity ("0 tips for work") = some 0
      ∧ Option.map List.length threeItemScript.mainContent = some 3
      ∧ generateScriptRun ("0 tips for work") (.resp threeItemScript) (.resp emptyParsedScript)
          = (.ok threeItemScript, 0) :=
  ⟨by decide, by decide, rfl⟩

/-- Claim C1 (amended with an extracted quantity of at least 1): for
every request whose extracted requestedQuantity is N with 1 ≤ N and
every first response whose parsed mainContent is an array, a length
equal to N means no retry call and the first result returned, and a
different length means exactly one retry call. -/
theorem c1_quantity_validation_retry (topic : String) (n : Nat) (p : ParsedScript)
    (l : List ScriptSection) (retryO : ScriptAttempt)
    (h1 : extractQuantity topic = some n) (h2 : 1 ≤ n) (h3 : p.mainContent = some l) :
    (l.length = n → generateScriptRun topic (.resp p) retryO = (.ok p, 0))
      ∧ (l.length ≠ n → (generateScriptRun topic (.resp p) retryO).2 = 1) := by
  have hne : n ≠ 0 := Nat.one_le_iff_ne_zero.mp h2
  constructor
  · intro hlen
    simp [generateScriptRun, h1, h3, optTruthy, hne, hlen]
  · intro hlen
    cases retryO with
    | invokeError e => simp [generateScriptRun, h1, h3, optTruthy, hne, hlen]
    | parseError e => simp [generateScriptRun, h1, h3, optTruthy, hne, hlen]
    | resp r =>
      cases hr : r.mainContent with
      | none => simp [generateScriptRun, h1, h3, optTruthy, hne, hlen, hr]
      | some lr =>
        by_cases hl : lr.length = n
        · simp [generateScriptRun, h1, h3, optTruthy, hne, hlen, hr, hl]
        · simp [generateScriptRun, h1, h3, optTruthy, hne, hlen, hr, hl]

/-- Witness for the amended claim C1 at the topic `2 tips for work`
and a first response with three mainContent items: one retry call. -/
theorem c1_quantity_validation_retry_witness :
    (generateScriptRun ("2 tips for work") (.resp threeItemScript)
        (.resp emptyParsedScript)).2 = 1 :=
  (c1_quantity_validation_retry ("2 tips for work") 2 threeItemScript
      [sampleSection, sampleSection, sampleSection] (.resp emptyParsedScript)
      (by decide) (by decide) rfl).2 (by decide)

/-- Claim C2, counterexample: with requestedQuantity 5 extracted and a
first parsed response without a mainContent field, generateScript skips
the quantity validation entirely and returns that response with no
retry call, while the claim requires the retry path to be taken. -/
theorem c2_counterexample :
    extractQuantity ("5 tips for work") = some 5
      ∧ generateScriptRun ("5 tips for work") (.resp emptyParsedScript) (.resp threeItemScript)
          = (.ok emptyParsedScript, 0) :=
  ⟨by decide, rfl⟩

/-- Claim C2 (amended): a parsed response with no mainContent field
bypasses the quantity validation entirely: generateScript performs no
retry call and returns that response unchanged, even when a
requestedQuantity was extracted. -/
theorem c2_missing_mainContent_skips_validation (topic : String) (p : ParsedScript)
    (retryO : ScriptAttempt) (h : p.mainContent = none) :
    generateScriptRun topic (.resp p) retryO = (.ok p, 0) := by
  simp [generateScriptRun, h]

/-- Witness for the amended claim C2 at the topic `5 tips for work`. -/
theorem c2_missing_mainContent_skips_validation_witness :
    generateScriptRun ("5 tips for work") (.resp emptyParsedScript)
        (.invokeError ("down")) = (.ok emptyParsedScript, 0) :=
  c2_missing_mainContent_skips_validation ("5 tips for work") emptyParsedScript
    (.invokeError ("down")) rfl

/-- Claim C3, code evaluation at the failing input: requestedQuantity 2,
first response with one mainContent item, retry response without a
mainContent field.  generateScript performs the retry and then returns
successfully, but the returned script is the first attempt, not the
retry result, contradicting the no-leak contract. -/
theorem c3_retry_without_mainContent_returns_first :
    extractQuantity ("2 tips for work") = some 2
      ∧ generateScriptRun ("2 tips for work") (.resp oneItemScript) (.resp emptyParsedScript)
          = (.ok oneItemScript, 1)
      ∧ oneItemScript ≠ emptyParsedScript :=
  ⟨by decide, rfl, by decide⟩

/-- Claim C4: when the run performed its retry call and both the first
and the retry response carry mainContent arrays whose lengths differ
from the extracted requestedQuantity, generateScript raises an error
whose message names the expected and the last actual count. -/
theorem c4_retry_exhausted_fails (topic : String) (n : Nat) (p r : ParsedScript)
    (l1 l2 : List ScriptSection)
    (h1 : extractQuantity topic = some n) (h2 : p.mainContent = some l1)
    (h3 : l1.length ≠ n) (h4 : r.mainContent = some l2) (h5 : l2.length ≠ n)
    (h6 : (generateScriptRun topic (.resp p) (.resp r)).2 = 1) :
    generateScriptRun topic (.resp p) (.resp r)
        = (.error (scriptFailMsg (quantityErrMsg n l2.length)), 1)
      ∧ ∃ before middle after,
          scriptFailMsg (quantityErrMsg n l2.length)
            = before ++ toString n ++ middle ++ toString l2.length ++ after := by
  have hne : n ≠ 0 := by
    intro h0
    subst h0
    simp [generateScriptRun, h1, h2, optTruthy] at h6
  constructor
  · simp [generateScriptRun, h1, h2, h3, h4, h5, optTruthy, hne]
  · exact ⟨"Failed to generate script: Script generation failed to produce ",
      " items as requested (got ", "). Please try again.",
      by simp [scriptFailMsg, quantityErrMsg, ← String.append_assoc]⟩

/-- Witness for claim C4: requestedQuantity 2, first response with one
item, retry response with three items: the run fails with the message
naming 2 and 3. -/
theorem c4_retry_exhausted_fails_witness :
    generateScriptRun ("2 tips for work") (.resp oneItemScript) (.resp threeItemScript)
      = (.error (scriptFailMsg (quantityErrMsg 2 3)), 1) :=
  (c4_retry_exhausted_fails ("2 tips for work") 2 oneItemScript threeItemScript
      [sampleSection] [sampleSection, sampleSection, sampleSection]
      (by decide) rfl (by decide) rfl (by decide) rfl).1

/-- Claim C10: an extracted requestedQuantity of 0 behaves exactly like
the no-match case.  The prompt built for quantity 0 is the prompt
built for no quantity, the quantity directive is empty, and the run
accepts any first parsed response without validation or retry. -/
theorem c10_zero_quantity_like_no_match (topic videoLength tone : String)
    (template : Option String) (qa : Bool) (p : ParsedScript) (retryO : ScriptAttempt)
    (h : extractQuantity topic = some 0) :
    buildScriptPrompt topic videoLength tone template (some 0) qa
        = buildScriptPrompt topic videoLength tone template none qa
      ∧ quantityInstructionFor (some 0) qa = ""
      ∧ scriptPrompt topic videoLength tone template
          = buildScriptPrompt topic videoLength tone template none (isQAFormatM topic)
      ∧ generateScriptRun topic (.resp p) retryO = (.ok p, 0) := by
  refine ⟨rfl, rfl, ?_, ?_⟩
  · unfold scriptPrompt
    rw [h]
    exact rfl
  · simp [generateScriptRun, h, optTruthy]

theorem containsSeq_of_suffix_prefix {pat : List Char} :
    ∀ {l s : List Char}, s <:+ l → prefixOfB pat s = true → containsSeq pat l = true := by
  intro l
  induction l with
  | nil =>
    intro s hs hp
    rw [List.suffix_nil.mp hs] at hp
    exact hp
  | cons c cs ih =>
    intro s hs hp
    rcases List.suffix_cons_iff.mp hs with rfl | hs2
    · simp [containsSeq, hp]
    · simp [containsSeq, ih hs2 hp]

theorem qaTail_answer {r : List Char} (h : qaTail r = true) :
    ∃ s, s <:+ r ∧ prefixOfB ("answer").data s = true := by
  simp only [qaTail, answerHere, Bool.or_eq_true, Bool.and_eq_true] at h
  rcases h with (h1 | ⟨_, h2⟩) | ⟨_, h3⟩
  · exact ⟨_, List.dropWhile_suffix isJsSpace, h1⟩
  · exact ⟨_, ((List.dropWhile_suffix isJsSpace).trans
      ((List.drop_suffix 3 _).trans (List.dropWhile_suffix isJsSpace))), h2⟩
  · exact ⟨_, ((List.dropWhile_suffix isJsSpace).trans
      ((List.drop_suffix 1 _).trans (List.dropWhile_suffix isJsSpace))), h3⟩

theorem qaAt_answer {cs : List Char} (h : qaAt cs = true) :
    ∃ s, s <:+ cs ∧ prefixOfB ("answer").data s = true := by
  simp only [qaAt, Bool.and_eq_true, Bool.or_eq_true] at h
  rcases h with ⟨_, h1 | ⟨_, h2⟩⟩
  · obtain ⟨s, hs, hp⟩ := qaTail_answer h1
    exact ⟨s, hs.trans (List.drop_suffix 8 cs), hp⟩
  · obtain ⟨s, hs, hp⟩ := qaTail_answer h2
    exact ⟨s, hs.trans (List.drop_suffix 9 cs), hp⟩

theorem scanQA_containsSeq : ∀ {cs : List Char},
    scanQA cs = true → containsSeq ("answer").data cs = true := by
  intro cs
  induction cs with
  | nil => intro h; exact absurd h (by decide)
  | cons c cs2 ih =>
    intro h
    simp only [scanQA, Bool.or_eq_true] at h
    rcases h with h1 | h2
    · obtain ⟨s, hs, hp⟩ := qaAt_answer h1
      exact containsSeq_of_suffix_prefix hs hp
    · simp [containsSeq, ih h2]

theorem scanQuantity_cons_match {c : Char} {cs : List Char} {n : Nat}
    (h : matchCountAt (c :: cs) = some n) : scanQuantity (c :: cs) = some n := by
  simp [scanQuantity, h]

theorem extractQuantity_starts_with (ds rest : List Char)
    (h1 : ds ≠ []) (h2 : ∀ c ∈ ds, Char.isDigit c = true) :
    extractQuantity (String.mk (ds ++ (" questions").data ++ rest))
      = some (digitsToNat ds) := by
  obtain ⟨d, ds2, rfl⟩ := List.exists_cons_of_ne_nil h1
  show scanQuantity ((((d :: ds2) ++ (" questions").data ++ rest)).map asciiLower)
      = some (digitsToNat (d :: ds2))
  rw [List.map_append, List.map_append, map_asciiLower_digits _ h2,
    show ((" questions").data).map asciiLower = (" questions").data from by decide]
  have hshape : (d :: ds2) ++ (" questions").data ++ rest.map asciiLower
      = (d :: ds2) ++ ' ' :: (("questions").data ++ rest.map asciiLower) := by
    simp [List.append_assoc]
  rw [hshape]
  have htake : ((d :: ds2) ++ ' ' :: (("questions").data ++ rest.map asciiLower)).takeWhile
      Char.isDigit = d :: ds2 :=
    takeWhile_all_append (d :: ds2) _ h2 (by decide)
  have hdrop : ((d :: ds2) ++ ' ' :: (("questions").data ++ rest.map asciiLower)).dropWhile
      Char.isDigit = ' ' :: (("questions").data ++ rest.map asciiLower) :=
    dropWhile_all_append (d :: ds2) _ h2 (by decide)
  have hmatch : matchCountAt ((d :: ds2) ++ ' ' :: (("questions").data ++ rest.map asciiLower))
      = some (digitsToNat (d :: ds2)) := by
    unfold matchCountAt
    rw [htake, hdrop]
    have hsp : (' ' :: (("questions").data ++ rest.map asciiLower)).dropWhile isJsSpace
        = ("questions").data ++ rest.map asciiLower := by
      rw [List.dropWhile_cons]
      simp [isJsSpace, List.dropWhile_cons]
    rw [hsp]
    have hstem : stemPrefix (("questions").data ++ rest.map asciiLower) = true := by
      have hpre : prefixOfB (("question").data)
          ((("question").data) ++ ('s' :: rest.map asciiLower)) = true :=
        prefixOfB_append (("question").data) ('s' :: rest.map asciiLower)
      simp only [stemPrefix, unitStems, List.any_cons, Bool.or_eq_true]
      left
      exact hpre
    rw [hstem]
    simp
  exact scanQuantity_cons_match hmatch

/-- Claim C5, counterexample: the subject text
`3 tips: 5 questions about sleep` contains the integer 5 immediately
followed by the word questions, yet the extractor returns 3 (the first
count-noun match wins) and isQAFormat is false (the code also requires
an answers part). -/
theorem c5_counterexample :
    extractQuantity ("3 tips: 5 questions about sleep") = some 3
      ∧ isQAFormatM ("3 tips: 5 questions about sleep") = false := by
  exact ⟨by decide, by decide⟩

/-- Claim C5 (amended): when the digit run followed by ` questions` is
the first count-plus-unit match of the subject text, in particular when
the text starts with it, requestedQuantity is its value; isQAFormat is
not implied by the questions pattern alone: it stays false whenever the
text does not even contain the letter sequence `answer`. -/
theorem c5_first_match_quantity_and_qa (ds rest : List Char)
    (h1 : ds ≠ []) (h2 : ∀ c ∈ ds, Char.isDigit c = true) :
    extractQuantity (String.mk (ds ++ (" questions").data ++ rest))
        = some (digitsToNat ds)
      ∧ (containsSeq ("answer").data
            (((String.mk (ds ++ (" questions").data ++ rest))).data.map asciiLower) = false →
          isQAFormatM (String.mk (ds ++ (" questions").data ++ rest)) = false) := by
  refine ⟨extractQuantity_starts_with ds rest h1 h2, ?_⟩
  intro hno
  cases hqa : isQAFormatM (String.mk (ds ++ (" questions").data ++ rest)) with
  | false => rfl
  | true =>
    have := scanQA_containsSeq (hqa)
    rw [hno] at this
    exact absurd this (by decide)

/-- Witness for the amended claim C5 at the text `5 questions about
sleep`: quantity 5 extracted, isQAFormat false. -/
theorem c5_first_match_quantity_and_qa_witness :
    extractQuantity (String.mk ((("5").data ++ (" questions").data ++ (" about sleep").data)))
        = some 5
      ∧ isQAFormatM (String.mk ((("5").data ++ (" questions").data ++ (" about sleep").data)))
        = false :=
  ⟨(c5_first_match_quantity_and_qa (("5").data) ((" about sleep").data)
      (by decide) (by decide)).1,
   (c5_first_match_quantity_and_qa (("5").data) ((" about sleep").data)
      (by decide) (by decide)).2 (by decide)⟩

/-- Claim C6, counterexample: an auxiliary model call that succeeds but
returns text that is not valid JSON makes the generator raise an error
(the JSON.parse exception reaches the same catch block as an
invocation failure); it does not return a zero-value package. -/
theorem c6_counterexample :
    generateSEOPackageRun (.ok (some ("not json")))
      = .error ("Failed to generate SEO package: " ++ jsonParseErrorText) := rfl

/-- Claim C6 (amended): for the three auxiliary generators, a null or
empty model content parses the fallback text and yields the empty
object without raising; text that is not valid JSON raises the wrapped
parse error, exactly like an invocation failure, which raises the
wrapped invocation message. -/
theorem c6_aux_parse_failure_raises (s e : String) (hs : jsonParse s = none) :
    (generateSEOPackageRun (.ok (some s))
          = .error ("Failed to generate SEO package: " ++ jsonParseErrorText)
        ∧ generateThumbnailConceptsRun (.ok (some s))
          = .error ("Failed to generate thumbnail concepts: " ++ jsonParseErrorText)
        ∧ generateProductionAssetsRun (.ok (some s))
          = .error ("Failed to generate production assets: " ++ jsonParseErrorText))
      ∧ (generateSEOPackageRun (.ok none) = .ok (Js.obj [])
        ∧ generateThumbnailConceptsRun (.ok none) = .ok (Js.obj [])
        ∧ generateProductionAssetsRun (.ok none) = .ok (Js.obj []))
      ∧ (generateSEOPackageRun (.error e)
          = .error ("Failed to generate SEO package: " ++ e)
        ∧ generateThumbnailConceptsRun (.error e)
          = .error ("Failed to generate thumbnail concepts: " ++ e)
        ∧ generateProductionAssetsRun (.error e)
          = .error ("Failed to generate production assets: " ++ e)) := by
  refine ⟨⟨?_, ?_, ?_⟩, ⟨rfl, rfl, rfl⟩, rfl, rfl, rfl⟩
  all_goals
    simp [generateSEOPackageRun, generateThumbnailConceptsRun,
      generateProductionAssetsRun, hs]

/-- Witness for the amended claim C6 at the text `not json`. -/
theorem c6_aux_parse_failure_raises_witness :
    generateSEOPackageRun (.ok (some ("not json")))
        = .error ("Failed to generate SEO package: " ++ jsonParseErrorText)
      ∧ generateThumbnailConceptsRun (.ok none) = .ok (Js.obj []) :=
  ⟨(c6_aux_parse_failure_raises ("not json") ("down") rfl).1.1,
   (c6_aux_parse_failure_raises ("not json") ("down") rfl).2.1.2.1⟩

theorem completeAfterScript_rejects (topic : String) (types : List String) (ord : MergeOrder)
    (s : Option ParsedScript) (seoO thumbO : Except String Js)
    (imgO : Nat → SectionOutcome) (prodO : Except String ProdParsed)
    (h : (types.contains ("seo") = true ∧ ∃ e, seoO = .error e)
        ∨ (types.contains ("thumbnails") = true ∧ ∃ e, thumbO = .error e)
        ∨ ((types.contains ("assets") || types.contains ("music")
              || types.contains ("bulletPoints")) = true ∧ ∃ e, prodO = .error e)) :
    ∃ msg, completeContentAfterScript topic types ord s seoO thumbO imgO prodO
      = .error msg := by
  unfold completeContentAfterScript
  rcases h with ⟨hreq, e, he⟩ | ⟨hreq, e, he⟩ | ⟨hreq, e, he⟩ <;> subst he
  · have hmem : ("seo" : String) ∈ types := by simpa using hreq
    simp [hmem, exErr, firstSome]
  · have hmem : ("thumbnails" : String) ∈ types := by simpa using hreq
    by_cases hseo : ("seo" : String) ∈ types
    · cases seoO with
      | error e2 => simp [hmem, hseo, exErr, firstSome]
      | ok v => simp [hmem, hseo, exErr, firstSome]
    · simp [hmem, hseo, exErr, firstSome]
  · have hmem : (("assets" : String) ∈ types ∨ ("music" : String) ∈ types)
        ∨ ("bulletPoints" : String) ∈ types := by simpa using hreq
    by_cases hseo : ("seo" : String) ∈ types
    · cases seoO with
      | error e2 => simp [hmem, hseo, exErr, firstSome]
      | ok v =>
        by_cases hth : ("thumbnails" : String) ∈ types
        · cases thumbO with
          | error e3 => simp [hmem, hseo, hth, exErr, firstSome]
          | ok w => simp [hmem, hseo, hth, exErr, firstSome]
        · simp [hmem, hseo, hth, exErr, firstSome]
    · by_cases hth : ("thumbnails" : String) ∈ types
      · cases thumbO with
        | error e3 => simp [hmem, hseo, hth, exErr, firstSome]
        | ok w => simp [hmem, hseo, hth, exErr, firstSome]
      · simp [hmem, hseo, hth, exErr, firstSome]

/-- Claim C7: when any requested auxiliary generator fails with a
raised error, generateCompleteContent raises an error; no content
package value is returned. -/
theorem c7_aux_failure_aborts (topic : String) (types : List String) (ord : MergeOrder)
    (sF sR : ScriptAttempt) (seoO thumbO : Except String Js)
    (imgO : Nat → SectionOutcome) (prodO : Except String ProdParsed)
    (h : (types.contains ("seo") = true ∧ ∃ e, seoO = .error e)
        ∨ (types.contains ("thumbnails") = true ∧ ∃ e, thumbO = .error e)
        ∨ ((types.contains ("assets") || types.contains ("music")
              || types.contains ("bulletPoints")) = true ∧ ∃ e, prodO = .error e)) :
    ∃ msg, generateCompleteContentRun topic types ord sF sR seoO thumbO imgO prodO
      = .error msg := by
  unfold generateCompleteContentRun
  by_cases hs : ("script" : String) ∈ types
  · cases hrun : (generateScriptRun topic sF sR).1 with
    | error e =>
      refine ⟨"Failed to generate complete content: " ++ e, ?_⟩
      simp [hs, hrun]
    | ok sc =>
      obtain ⟨msg, hmsg⟩ := completeAfterScript_rejects topic types ord (some sc)
        seoO thumbO imgO prodO h
      refine ⟨msg, ?_⟩
      simp [hs, hrun, hmsg]
  · obtain ⟨msg, hmsg⟩ := completeAfterScript_rejects topic types ord none
      seoO thumbO imgO prodO h
    refine ⟨msg, ?_⟩
    simp [hs, hmsg]

/-- Witness for claim C7: the SEO task requested and failing. -/
theorem c7_aux_failure_aborts_witness :
    ∃ msg, generateCompleteContentRun ("t") ["seo"] .imageFirst (.invokeError ("x"))
        (.invokeError ("x")) (.error ("boom")) (.ok (Js.obj [])) failFirstOracle
        (.ok { musicPrompts := none, bulletPoints := none })
      = .error msg :=
  c7_aux_failure_aborts ("t") ["seo"] .imageFirst (.invokeError ("x")) (.invokeError ("x"))
    (.error ("boom")) (.ok (Js.obj [])) failFirstOracle
    (.ok { musicPrompts := none, bulletPoints := none })
    (Or.inl ⟨by decide, ("boom"), rfl⟩)

theorem completeAfterScript_assets (topic : String) (types : List String) (ord : MergeOrder)
    (s : Option ParsedScript) (seoO thumbO : Except String Js)
    (imgO : Nat → SectionOutcome) (g : ProdParsed) (m b : Js)
    (hImg : types.contains ("imagePrompts") = true)
    (hProd : (types.contains ("assets") || types.contains ("music")
        || types.contains ("bulletPoints")) = true)
    (hSeo : types.contains ("seo") = true → ∃ v, seoO = .ok v)
    (hThumb : types.contains ("thumbnails") = true → ∃ v, thumbO = .ok v)
    (hm : g.musicPrompts = some m) (hb : g.bulletPoints = some b) :
    ∃ C A ip, completeContentAfterScript topic types ord s seoO thumbO imgO (.ok g) = .ok C
        ∧ C.assets = some A ∧ A.imagePrompts = some ip
        ∧ A.musicPrompts = some m ∧ A.bulletPoints = some b := by
  have hImgM : ("imagePrompts" : String) ∈ types := by simpa using hImg
  have hProdM : (("assets" : String) ∈ types ∨ ("music" : String) ∈ types)
      ∨ ("bulletPoints" : String) ∈ types := by simpa using hProd
  unfold completeContentAfterScript
  by_cases hseo : ("seo" : String) ∈ types
  · obtain ⟨v1, hv1⟩ := hSeo (by simpa using hseo)
    subst hv1
    by_cases hth : ("thumbnails" : String) ∈ types
    · obtain ⟨v2, hv2⟩ := hThumb (by simpa using hth)
      subst hv2
      cases ord <;>
        simp [hseo, hth, hImgM, hProdM, firstSome, exErr, exOk,
          productionAssetsMerge, imagePromptsMerge, spreadField, hm, hb]
    · cases ord <;>
        simp [hseo, hth, hImgM, hProdM, firstSome, exErr, exOk,
          productionAssetsMerge, imagePromptsMerge, spreadField, hm, hb]
  · by_cases hth : ("thumbnails" : String) ∈ types
    · obtain ⟨v2, hv2⟩ := hThumb (by simpa using hth)
      subst hv2
      cases ord <;>
        simp [hseo, hth, hImgM, hProdM, firstSome, exErr, exOk,
          productionAssetsMerge, imagePromptsMerge, spreadField, hm, hb]
    · cases ord <;>
        simp [hseo, hth, hImgM, hProdM, firstSome, exErr, exOk,
          productionAssetsMerge, imagePromptsMerge, spreadField, hm, hb]

/-- Claim C8: when the image-prompts task and the production-assets
task are both requested and every requested task succeeds, the final
assets bucket contains the imagePrompts field together with the
musicPrompts and bulletPoints fields produced by the production task,
for either completion order of the two callbacks, in both
coordinators. -/
theorem c8_assets_bucket_merges (topic script : String) (types : List String)
    (ord : MergeOrder) (sF sR : ScriptAttempt) (seoO thumbO : Except String Js)
    (imgO : Nat → SectionOutcome) (g : ProdParsed) (m b : Js)
    (hImg : types.contains ("imagePrompts") = true)
    (hProd : (types.contains ("assets") || types.contains ("music")
        || types.contains ("bulletPoints")) = true)
    (hSeo : types.contains ("seo") = true → ∃ v, seoO = .ok v)
    (hThumb : types.contains ("thumbnails") = true → ∃ v, thumbO = .ok v)
    (hScript : types.contains ("script") = true
        → ∃ sc, (generateScriptRun topic sF sR).1 = .ok sc)
    (hm : g.musicPrompts = some m) (hb : g.bulletPoints = some b) :
    (∃ C A ip, generateCompleteContentRun topic types ord sF sR seoO thumbO imgO (.ok g)
          = .ok C ∧ C.assets = some A ∧ A.imagePrompts = some ip
        ∧ A.musicPrompts = some m ∧ A.bulletPoints = some b)
      ∧ (∃ C A ip, generateContentFromScriptRun script types ord seoO thumbO imgO (.ok g)
          = .ok C ∧ C.assets = some A ∧ A.imagePrompts = some ip
        ∧ A.musicPrompts = some m ∧ A.bulletPoints = some b) := by
  constructor
  · unfold generateCompleteContentRun
    by_cases hs : ("script" : String) ∈ types
    · obtain ⟨sc, hrun⟩ := hScript (by simpa using hs)
      obtain ⟨C, A, ip, h1, h2, h3, h4, h5⟩ := completeAfterScript_assets topic types ord
        (some sc) seoO thumbO imgO g m b hImg hProd hSeo hThumb hm hb
      exact ⟨C, A, ip, by simp [hs, hrun, h1], h2, h3, h4, h5⟩
    · obtain ⟨C, A, ip, h1, h2, h3, h4, h5⟩ := completeAfterScript_assets topic types ord
        none seoO thumbO imgO g m b hImg hProd hSeo hThumb hm hb
      exact ⟨C, A, ip, by simp [hs, h1], h2, h3, h4, h5⟩
  · have hImgM : ("imagePrompts" : String) ∈ types := by simpa using hImg
    have hProdM : (("assets" : String) ∈ types ∨ ("music" : String) ∈ types)
        ∨ ("bulletPoints" : String) ∈ types := by simpa using hProd
    unfold generateContentFromScriptRun
    by_cases hseo : ("seo" : String) ∈ types
    · obtain ⟨v1, hv1⟩ := hSeo (by simpa using hseo)
      subst hv1
      by_cases hth : ("thumbnails" : String) ∈ types
      · obtain ⟨v2, hv2⟩ := hThumb (by simpa using hth)
        subst hv2
        cases ord <;>
          simp [hseo, hth, hImgM, hProdM, firstSome, exErr, exOk,
            productionAssetsMerge, imagePromptsMergeFromScript, spreadField, hm, hb]
      · cases ord <;>
          simp [hseo, hth, hImgM, hProdM, firstSome, exErr, exOk,
            productionAssetsMerge, imagePromptsMergeFromScript, spreadField, hm, hb]
    · by_cases hth : ("thumbnails" : String) ∈ types
      · obtain ⟨v2, hv2⟩ := hThumb (by simpa using hth)
        subst hv2
        cases ord <;>
          simp [hseo, hth, hImgM, hProdM, firstSome, exErr, exOk,
            productionAssetsMerge, imagePromptsMergeFromScript, spreadField, hm, hb]
      · cases ord <;>
          simp [hseo, hth, hImgM, hProdM, firstSome, exErr, exOk,
            productionAssetsMerge, imagePromptsMergeFromScript, spreadField, hm, hb]

/-- Witness for claim C8: both tasks requested, production assets with
concrete music and bullet values, assets-first completion order. -/
theorem c8_assets_bucket_merges_witness :
    ∃ C A ip, generateCompleteContentRun ("t") ["imagePrompts", "assets"] .assetsFirst
        (.invokeError ("x")) (.invokeError ("x")) (.ok (Js.obj [])) (.ok (Js.obj []))
        failFirstOracle (.ok { musicPrompts := some (Js.str ("m")),
                               bulletPoints := some (Js.str ("b")) })
      = .ok C ∧ C.assets = some A ∧ A.imagePrompts = some ip
      ∧ A.musicPrompts = some (Js.str ("m")) ∧ A.bulletPoints = some (Js.str ("b")) :=
  (c8_assets_bucket_merges ("t") ("s") ["imagePrompts", "assets"] .assetsFirst
    (.invokeError ("x")) (.invokeError ("x")) (.ok (Js.obj [])) (.ok (Js.obj []))
    failFirstOracle
    { musicPrompts := some (Js.str ("m")), bulletPoints := some (Js.str ("b")) }
    (Js.str ("m")) (Js.str ("b")) (by decide) (by decide)
    (fun hc => absurd hc (by decide)) (fun hc => absurd hc (by decide))
    (fun hc => absurd hc (by decide)) rfl rfl).1

theorem imageLoop_length (o : Nat → SectionOutcome) :
    ∀ (l : List String) (k : Nat), (imageLoop o k l).length = l.length := by
  intro l
  induction l with
  | nil => intro k; rfl
  | cons p rest ih => intro k; simp [imageLoop, ih]

theorem imageLoop_get (o : Nat → SectionOutcome) :
    ∀ (l : List String) (k i : Nat),
      (imageLoop o k l)[i]? = (l[i]?).map (fun p => imageEntry o (k + i) p) := by
  intro l
  induction l with
  | nil => intro k i; rfl
  | cons p rest ih =>
    intro k i
    cases i with
    | zero => simp [imageLoop]
    | succ j =>
      have := ih (k + 1) j
      simp only [imageLoop, List.getElem?_cons_succ, this]
      have harith : k + 1 + j = k + (j + 1) := by omega
      rw [harith]

/-- Claim C9: generateImagePromptsFromRawScript returns one entry per
non-empty trimmed block of the blank-line split, in order; entry i is
labeled Paragraph i+1 and carries the block text; a failed section
yields the empty prompt list; and the entry of section i depends only
on the outcome of the model call of section i, so failures of other
sections leave it unaffected. -/
theorem c9_raw_split_sections (raw : String) (o : Nat → SectionOutcome) :
    (generateImagePromptsFromRawScriptRun raw o).length = (splitParagraphs raw).length
      ∧ (∀ i p, (splitParagraphs raw)[i]? = some p →
          (generateImagePromptsFromRawScriptRun raw o)[i]? = some (imageEntry o i p)
            ∧ (imageEntry o i p).sectionLabel = "Paragraph " ++ toString (i + 1)
            ∧ (imageEntry o i p).content = p
            ∧ (∀ msg, o i = .fail msg → (imageEntry o i p).prompts = [])
            ∧ (∀ o2 : Nat → SectionOutcome, o2 i = o i →
                (generateImagePromptsFromRawScriptRun raw o2)[i]?
                  = (generateImagePromptsFromRawScriptRun raw o)[i]?)) := by
  constructor
  · exact imageLoop_length o (splitParagraphs raw) 0
  · intro i p hp
    have hget := imageLoop_get o (splitParagraphs raw) 0 i
    rw [hp] at hget
    simp only [Nat.zero_add, Option.map_some] at hget
    refine ⟨hget, ?_, ?_, ?_, ?_⟩
    · unfold imageEntry
      cases o i <;> rfl
    · unfold imageEntry
      cases o i <;> rfl
    · intro msg hmsg
      unfold imageEntry
      rw [hmsg]
    · intro o2 h2
      have hget2 := imageLoop_get o2 (splitParagraphs raw) 0 i
      rw [hp] at hget2
      simp only [Nat.zero_add] at hget2
      show (imageLoop o2 0 (splitParagraphs raw))[i]? = (imageLoop o 0 (splitParagraphs raw))[i]?
      rw [hget, hget2]
      simp only [Option.map]
      unfold imageEntry
      rw [h2]

/-- Witness for claim C9 on the raw text with two paragraphs, the first
section failing. -/
theorem c9_raw_split_sections_witness :
    (generateImagePromptsFromRawScriptRun ("a\n\nb") failFirstOracle)[0]?
        = some (imageEntry failFirstOracle 0 ("a"))
      ∧ (imageEntry failFirstOracle 0 ("a")).prompts = [] :=
  ⟨((c9_raw_split_sections ("a\n\nb") failFirstOracle).2 0 ("a") (by decide)).1,
   ((c9_raw_split_sections ("a\n\nb") failFirstOracle).2 0 ("a") (by decide)).2.2.2.1
     ("model call failed") rfl⟩

/-- Witness for claim C10 at the topic `0 tips for work` and a first
response with three mainContent items: accepted with no retry. -/
theorem c10_zero_quantity_like_no_match_witness :
    quantityInstructionFor (some 0) false = ""
      ∧ generateScriptRun ("0 tips for work") (.resp threeItemScript) (.invokeError ("down"))
          = (.ok threeItemScript, 0) :=
  ⟨(c10_zero_quantity_like_no_match ("0 tips for work") ("3-5 minutes (Standard)")
      ("informative") none false threeItemScript (.invokeError ("down")) (by decide)).2.1,
   (c10_zero_quantity_like_no_match ("0 tips for work") ("3-5 minutes (Standard)")
      ("informative") none false threeItemScript (.invokeError ("down")) (by decide)).2.2.2⟩

end VideoGenius
